import Mathlib

/-
Verification of the geometry property-sync module (`ifc_geometry.py`) and the
view-provider adapter (`ifc_viewproviders/ifc_vp_object.py`) of the
FreeCAD-NativeIFC repository.

The embedding is shallow: IFC entities reachable from an element's body
representation are modelled as inductive data, the FreeCAD document object as a
record of its dynamically added geometry properties, and the side effects of
the two sync functions as explicit state passing over a `World` holding the
CAD object together with the log of IFC toolkit API calls issued so far.
Numbers are exact rationals.
-/

namespace NativeIFC

/-- A FreeCAD `Vector`: three rational coordinates. -/
structure Vec3 where
  x : ℚ
  y : ℚ
  z : ℚ
deriving DecidableEq, Repr

/-- `FreeCAD.Vector(t)` built from a coordinate tuple: coordinates missing from
the tuple default to `0` (a 2-tuple gives `z = 0`). -/
def mkVector (l : List ℚ) : Vec3 :=
  ⟨l.getD 0 0, l.getD 1 0, l.getD 2 0⟩

/-- `Vector.multiply(s)`: scale every coordinate. -/
def Vec3.multiply (v : Vec3) (s : ℚ) : Vec3 :=
  ⟨v.x * s, v.y * s, v.z * s⟩

/-- An `IfcCartesianPoint` is its `Coordinates` list (2 or 3 coordinates in
valid files; the type allows any length). Its `Dim` is the list length. -/
abbrev IfcPoint := List ℚ

/-- The curves the code inspects: an `IfcPolyline` with its `Points`, or any
other curve class. -/
inductive IfcCurve
  | polyline (points : List IfcPoint)
  | otherCurve (ifcClass : String)
deriving DecidableEq, Repr

/-- The profile classes the code inspects: `IfcRectangleProfileDef` with
`XDim`/`YDim`, `IfcArbitraryClosedProfileDef` with `OuterCurve`, or any other
profile class. -/
inductive IfcProfile
  | rectangle (xdim ydim : ℚ)
  | arbitraryClosed (outerCurve : IfcCurve)
  | otherProfile (ifcClass : String)
deriving DecidableEq, Repr

/-- An `IfcDirection`: its `DirectionRatios` tuple. -/
structure IfcDirection where
  directionRatios : List ℚ
deriving DecidableEq, Repr

/-- A representation item. `extrudedAreaSolid` is `IfcExtrudedAreaSolid` with
`SweptArea`, `Depth` and `ExtrudedDirection`. `profileDef p` stands for an item
that is itself a profile-definition entity (so `is_a("IfcArbitraryClosedProfileDef")`
can answer true on it, but it has no `SweptArea` attribute). `otherItem` is any
other entity class. -/
inductive IfcItem
  | extrudedAreaSolid (sweptArea : IfcProfile) (depth : ℚ) (extrudedDirection : IfcDirection)
  | profileDef (p : IfcProfile)
  | otherItem (ifcClass : String)
deriving DecidableEq, Repr

/-- An `IfcShapeRepresentation`: its `RepresentationIdentifier` and `Items`. -/
structure IfcRep where
  representationIdentifier : String
  items : List IfcItem
deriving DecidableEq, Repr

/-- The element's `Representation` attribute (an `IfcProductDefinitionShape`):
its `Representations` list. -/
structure IfcShape where
  representations : List IfcRep
deriving DecidableEq, Repr

/-- The slice of an IFC element the module reads: its optional `Representation`.
`none` models an element without a representation. -/
structure IfcElement where
  representation : Option IfcShape
deriving DecidableEq, Repr

/-- Modelled from the spec: `ifc_tools.get_ifc_element` (not under `src/`) may
fail to find an element for the object, and `ifc_tools.has_representation`
answers whether the element exists and carries a `Representation`; per the
spec, absence of a representation makes both sync functions a silent no-op. -/
def hasRepresentation : Option IfcElement → Bool
  | none => false
  | some el => el.representation.isSome

/-- The FreeCAD document object as the module sees it: its `Label`, its
`PropertiesList` (the names of all its properties), and the values of the five
dynamically added geometry properties (defaulting before creation). -/
structure CadObj where
  label : String
  propertiesList : List String
  extrusionDepth : ℚ
  extrusionDirection : Vec3
  rectangleLength : ℚ
  rectangleWidth : ℚ
  polylinePoints : List Vec3
deriving DecidableEq, Repr

/-- A value passed to the toolkit's `attribute.edit_attributes` call. -/
inductive AttrValue
  | num (v : ℚ)
  | tuple (l : List ℚ)
deriving DecidableEq, Repr

/-- Which IFC entity an API call targets, identified by the position of its
representation in `Representations` and the path inside that representation:
the solid itself, its `ExtrudedDirection`, its `SweptArea`, or a point of the
profile's outer polyline. -/
inductive EditTarget
  | solid (repIdx : ℕ)
  | direction (repIdx : ℕ)
  | sweptArea (repIdx : ℕ)
  | point (repIdx : ℕ) (ptIdx : ℕ)
deriving DecidableEq, Repr

/-- The representation index an edit target lives in. -/
def EditTarget.repIdx : EditTarget → ℕ
  | .solid i => i
  | .direction i => i
  | .sweptArea i => i
  | .point i _ => i

/-- One IFC toolkit API call: `attribute.edit_attributes`,
`root.create_entity` or `root.remove_product`. -/
inductive IfcEdit
  | editAttributes (target : EditTarget) (attrName : String) (value : AttrValue)
  | createEntity (ifcClass : String)
  | removeProduct (target : EditTarget)
deriving DecidableEq, Repr

/-- The mutable state both sync functions act on: the CAD document object and
the log of IFC API calls issued to the file so far. -/
structure World where
  obj : CadObj
  edits : List IfcEdit
deriving DecidableEq, Repr

/-- `obj.addProperty(type, name, group)`: registers `name` in the object's
`PropertiesList`. -/
def addProperty (name : String) (w : World) : World :=
  { w with obj := { w.obj with propertiesList := w.obj.propertiesList ++ [name] } }

/-- `ifcopenshell.api.run(...)`: appends the call to the IFC edit log. -/
def apiRun (e : IfcEdit) (w : World) : World :=
  { w with edits := w.edits ++ [e] }

/-- The `if name not in obj.PropertiesList: obj.addProperty(...)` pattern of
`add_geom_properties`: registers the property only when it is missing. -/
def ensureProp (name : String) (w : World) : World :=
  if name ∈ w.obj.propertiesList then w else addProperty name w

/-- `obj.ExtrusionDepth = v`. -/
def setExtrusionDepth (v : ℚ) (w : World) : World :=
  { w with obj := { w.obj with extrusionDepth := v } }

/-- `obj.ExtrusionDirection = v`. -/
def setExtrusionDirection (v : Vec3) (w : World) : World :=
  { w with obj := { w.obj with extrusionDirection := v } }

/-- `obj.RectangleLength = v`. -/
def setRectangleLength (v : ℚ) (w : World) : World :=
  { w with obj := { w.obj with rectangleLength := v } }

/-- `obj.RectangleWidth = v`. -/
def setRectangleWidth (v : ℚ) (w : World) : World :=
  { w with obj := { w.obj with rectangleWidth := v } }

/-- `obj.PolylinePoints = v`. -/
def setPolylinePoints (v : List Vec3) (w : World) : World :=
  { w with obj := { w.obj with polylinePoints := v } }

/-- The pull-sync length scale (`ifc_geometry.py` lines 38-39): the file's
declared unit scale (metres) times 1000, to millimetres. -/
def pullScale (unitScale : ℚ) : ℚ :=
  unitScale * 1000

/-- The push-sync length scale (`ifc_geometry.py` lines 127-128):
`0.001 / unit scale`. -/
def pushScale (unitScale : ℚ) : ℚ :=
  0.001 / unitScale

/-- Loop body of `add_geom_properties` (lines 40-88) for one representation.
The disabled `Axis` branch (guarded by a literal `False`, lines 91-117) is
unreachable and has no effect. -/
def addGeomPropertiesRep (scaling : ℚ) (rep : IfcRep) (w : World) : World :=
  if rep.representationIdentifier = "Body" then
    match rep.items with
    | [item] =>
      match item with
      | IfcItem.extrudedAreaSolid sweptArea depth dir =>
        let w := ensureProp "ExtrusionDepth" w
        let w := setExtrusionDepth (depth * scaling) w
        let w := ensureProp "ExtrusionDirection" w
        let w := setExtrusionDirection (mkVector dir.directionRatios) w
        match sweptArea with
        | IfcProfile.rectangle xdim ydim =>
          let w := ensureProp "RectangleLength" w
          let w := setRectangleLength (xdim * scaling) w
          let w := ensureProp "RectangleWidth" w
          setRectangleWidth (ydim * scaling) w
        | IfcProfile.arbitraryClosed (IfcCurve.polyline pts) =>
          let w := ensureProp "PolylinePoints" w
          let points := pts
          let points := (points.filter (fun p => p.length < 3)).map (fun p => p ++ [0])
          let points := points.map (fun p => (mkVector p).multiply scaling)
          setPolylinePoints points w
        | _ => w
      | _ => w
    | _ => w
  else w

/-- `add_geom_properties(obj)` (lines 31-88): a no-op without a representation,
otherwise folds the loop body over the element's representations. `unitScale`
is the toolkit's `calculate_unit_scale(ifcfile)` for the object's file. -/
def addGeomProperties (element : Option IfcElement) (unitScale : ℚ) (w : World) : World :=
  match element with
  | none => w
  | some el =>
    match el.representation with
    | none => w
    | some shape =>
      let scaling := pullScale unitScale
      shape.representations.foldl (fun w rep => addGeomPropertiesRep scaling rep w) w

/-- The `ExtrusionDepth` loop of `set_geom_property` (lines 132-145): the first
`Body` representation whose single item is an `IfcExtrudedAreaSolid` gets its
`Depth` edited and the function returns True; otherwise the loop falls through
to the final `return False`. `i` is the `Representations` index of the list
head; `value` is `getattr(obj, prop).Value * scaling`. -/
def setDepthLoop (value : ℚ) : List IfcRep → ℕ → World → World × Bool
  | [], _, w => (w, false)
  | rep :: rest, i, w =>
    if rep.representationIdentifier = "Body" then
      match rep.items with
      | [item] =>
        match item with
        | IfcItem.extrudedAreaSolid _ _ _ =>
          (apiRun (.editAttributes (.solid i) "Depth" (.num value)) w, true)
        | _ => setDepthLoop value rest (i + 1) w
      | _ => setDepthLoop value rest (i + 1) w
    else setDepthLoop value rest (i + 1) w

/-- The `ExtrusionDirection` loop (lines 147-160): edits the solid's
`ExtrudedDirection.DirectionRatios` with `tuple(getattr(obj, prop))`. -/
def setDirectionLoop (value : List ℚ) : List IfcRep → ℕ → World → World × Bool
  | [], _, w => (w, false)
  | rep :: rest, i, w =>
    if rep.representationIdentifier = "Body" then
      match rep.items with
      | [item] =>
        match item with
        | IfcItem.extrudedAreaSolid _ _ _ =>
          (apiRun (.editAttributes (.direction i) "DirectionRatios" (.tuple value)) w, true)
        | _ => setDirectionLoop value rest (i + 1) w
      | _ => setDirectionLoop value rest (i + 1) w
    else setDirectionLoop value rest (i + 1) w

/-- The `RectangleLength` loop (lines 162-176): only a solid whose `SweptArea`
is an `IfcRectangleProfileDef` is edited (`XDim`); a solid over another profile
makes the loop continue with the next representation. -/
def setRectLengthLoop (value : ℚ) : List IfcRep → ℕ → World → World × Bool
  | [], _, w => (w, false)
  | rep :: rest, i, w =>
    if rep.representationIdentifier = "Body" then
      match rep.items with
      | [item] =>
        match item with
        | IfcItem.extrudedAreaSolid (IfcProfile.rectangle _ _) _ _ =>
          (apiRun (.editAttributes (.sweptArea i) "XDim" (.num value)) w, true)
        | _ => setRectLengthLoop value rest (i + 1) w
      | _ => setRectLengthLoop value rest (i + 1) w
    else setRectLengthLoop value rest (i + 1) w

/-- The `RectangleWidth` loop (lines 178-192): like `RectangleLength` but
editing `YDim`. -/
def setRectWidthLoop (value : ℚ) : List IfcRep → ℕ → World → World × Bool
  | [], _, w => (w, false)
  | rep :: rest, i, w =>
    if rep.representationIdentifier = "Body" then
      match rep.items with
      | [item] =>
        match item with
        | IfcItem.extrudedAreaSolid (IfcProfile.rectangle _ _) _ _ =>
          (apiRun (.editAttributes (.sweptArea i) "YDim" (.num value)) w, true)
        | _ => setRectWidthLoop value rest (i + 1) w
      | _ => setRectWidthLoop value rest (i + 1) w
    else setRectWidthLoop value rest (i + 1) w

/-- The `PolylinePoints` loop (lines 194-232). The guard at line 198 asks
`rep.Items[0].is_a("IfcArbitraryClosedProfileDef")` of the representation item
itself (not of its `SweptArea`): it answers false for an
`IfcExtrudedAreaSolid`, and when it answers true the very next access
`rep.Items[0].SweptArea` (line 199) raises `AttributeError`, because a profile
definition has no `SweptArea` attribute. The point create/remove/edit code of
lines 200-232 is therefore unreachable and has no counterpart here. -/
def setPolylineLoop : List IfcRep → ℕ → World → Option (World × Bool)
  | [], _, w => some (w, false)
  | rep :: rest, i, w =>
    if rep.representationIdentifier = "Body" then
      match rep.items with
      | [item] =>
        match item with
        | IfcItem.profileDef (IfcProfile.arbitraryClosed _) => none
        | _ => setPolylineLoop rest (i + 1) w
      | _ => setPolylineLoop rest (i + 1) w
    else setPolylineLoop rest (i + 1) w

/-- The five geometry property names dispatched by `set_geom_property`. -/
def geomProps : List String :=
  ["ExtrusionDepth", "ExtrusionDirection", "RectangleLength", "RectangleWidth",
   "PolylinePoints"]

/-- `set_geom_property(obj, prop)` (lines 120-233). `none` models a raised
exception: `ZeroDivisionError` when the file's unit scale is zero (line 128),
`AttributeError` when `prop` is not a property of the object (the `getattr` in
the debug print of line 130; a FreeCAD object's `PropertiesList` names all its
properties), or the `AttributeError` of line 199 inside the `PolylinePoints`
branch. Otherwise `some (w, b)`: the final state and the returned Boolean. -/
def setGeomProperty (element : Option IfcElement) (unitScale : ℚ) (prop : String)
    (w : World) : Option (World × Bool) :=
  match element with
  | none => some (w, false)
  | some el =>
    match el.representation with
    | none => some (w, false)
    | some shape =>
      if unitScale = 0 then none
      else
        let scaling := pushScale unitScale
        if prop ∈ w.obj.propertiesList then
          let reps := shape.representations
          if prop = "ExtrusionDepth" then
            some (setDepthLoop (w.obj.extrusionDepth * scaling) reps 0 w)
          else if prop = "ExtrusionDirection" then
            some (setDirectionLoop
              [w.obj.extrusionDirection.x, w.obj.extrusionDirection.y,
               w.obj.extrusionDirection.z] reps 0 w)
          else if prop = "RectangleLength" then
            some (setRectLengthLoop (w.obj.rectangleLength * scaling) reps 0 w)
          else if prop = "RectangleWidth" then
            some (setRectWidthLoop (w.obj.rectangleWidth * scaling) reps 0 w)
          else if prop = "PolylinePoints" then
            setPolylineLoop reps 0 w
          else some (w, false)
        else none

/-- A context-menu entry: the "Reveal children" action the view provider may
add, or any entry already in the menu. -/
inductive MenuAction
  | revealChildren
  | otherAction (label : String)
deriving DecidableEq, Repr

/-- The slice of the document object the view provider reads. Modelled from
the spec: `ifc_tools.get_ifcfile` and `ifc_tools.get_children` are not under
`src/`; `ifcfile` is the object's associated IFC file (if any) and `children`
is what `get_children(obj, ifcfile)` would list — the element's decomposable
children. -/
structure VPObj where
  ifcfile : Option String
  children : List String
deriving DecidableEq, Repr

/-- `ifc_vp_object.hasChildren` (lines 69-78): true exactly when the object has
an associated IFC file and `get_children` returns a non-empty (truthy) list. -/
def hasChildren (obj : VPObj) : Bool :=
  match obj.ifcfile with
  | some _ => !obj.children.isEmpty
  | none => false

/-- `ifc_vp_object.setupContextMenu` (lines 57-66): appends the
"Reveal children" action exactly when `hasChildren` answers true. -/
def setupContextMenu (obj : VPObj) (menu : List MenuAction) : List MenuAction :=
  if hasChildren obj then menu ++ [MenuAction.revealChildren] else menu

/-- `ifc_vp_object.getDisplayModes` (lines 32-33): always the empty list. -/
def getDisplayModes (_obj : VPObj) : List String := []

/-- `ifc_vp_object.getDefaultDisplayMode` (lines 35-36). -/
def getDefaultDisplayMode : String := "FlatLines"

/-- `ifc_vp_object.setDisplayMode` (lines 38-39): hands the mode back. -/
def setDisplayMode (mode : String) : String := mode

/-- `ifc_vp_object.onChanged` (lines 41-42): a bare `return`, touching
nothing; embedded as the identity on the object it could have mutated. -/
def onChanged (vobj : VPObj) (_prop : String) : VPObj := vobj

/-- `ifc_vp_object.updateData` (lines 44-45): a bare `return`, touching
nothing; embedded as the identity on the object it could have mutated. -/
def updateData (obj : VPObj) (_prop : String) : VPObj := obj

/-- The representations the sync functions iterate over:
`element.Representation.Representations`, empty when absent. -/
def repsOf : Option IfcElement → List IfcRep
  | none => []
  | some el =>
    match el.representation with
    | none => []
    | some shape => shape.representations

/-- Whether a representation fires the pull-sync loop body: a `Body`
representation whose single item is an `IfcExtrudedAreaSolid`
(lines 41-44). -/
def pullMatches (rep : IfcRep) : Bool :=
  (rep.representationIdentifier == "Body") &&
    match rep.items with
    | [item] =>
      match item with
      | IfcItem.extrudedAreaSolid _ _ _ => true
      | _ => false
    | _ => false

/-- Whether a representation satisfies the guards of `set_geom_property`'s
loop for `prop` (for `PolylinePoints`, the guard of line 198, which tests the
representation item itself rather than its `SweptArea`). -/
def pushMatches (prop : String) (rep : IfcRep) : Bool :=
  (rep.representationIdentifier == "Body") &&
    match rep.items with
    | [item] =>
      match prop, item with
      | "ExtrusionDepth", IfcItem.extrudedAreaSolid _ _ _ => true
      | "ExtrusionDirection", IfcItem.extrudedAreaSolid _ _ _ => true
      | "RectangleLength", IfcItem.extrudedAreaSolid (IfcProfile.rectangle _ _) _ _ => true
      | "RectangleWidth", IfcItem.extrudedAreaSolid (IfcProfile.rectangle _ _) _ _ => true
      | "PolylinePoints", IfcItem.profileDef (IfcProfile.arbitraryClosed _) => true
      | _, _ => false
    | _ => false

/-- The property names `add_geom_properties` ensures exist for a given
representation before setting them. -/
def requiredNames (rep : IfcRep) : List String :=
  if rep.representationIdentifier = "Body" then
    match rep.items with
    | [item] =>
      match item with
      | IfcItem.extrudedAreaSolid sweptArea _ _ =>
        ["ExtrusionDepth", "ExtrusionDirection"] ++
          (match sweptArea with
           | IfcProfile.rectangle _ _ => ["RectangleLength", "RectangleWidth"]
           | IfcProfile.arbitraryClosed (IfcCurve.polyline _) => ["PolylinePoints"]
           | _ => [])
      | _ => []
    | _ => []
  else []

/-- The CAD object a `set_geom_property` outcome leaves behind: the input
object when the call raised, the final state's object otherwise. -/
def outObj (w : World) : Option (World × Bool) → CadObj
  | none => w.obj
  | some r => r.1.obj

/-- A fresh document object: only built-in properties (here `Label`), no
geometry properties yet. -/
def freshWorld : World :=
  { obj := { label := "Wall", propertiesList := ["Label"], extrusionDepth := 0,
             extrusionDirection := ⟨0, 0, 0⟩, rectangleLength := 0, rectangleWidth := 0,
             polylinePoints := [] },
    edits := [] }

/-- An element whose body representation is an extrusion of an
`IfcArbitraryClosedProfileDef` over an `IfcPolyline` of three 2D points. -/
def polyElem2d : IfcElement :=
  ⟨some ⟨[⟨"Body", [IfcItem.extrudedAreaSolid
      (IfcProfile.arbitraryClosed (IfcCurve.polyline [[0, 0], [4, 0], [4, 3]]))
      5 ⟨[0, 0, 1]⟩]⟩]⟩⟩

/-- A one-point polyline whose point has three coordinates (legal in IFC). -/
def poly3dPoints : List IfcPoint :=
  [[1, 2, 3]]

/-- Like `polyElem2d` but the polyline is `poly3dPoints`: its single point has
three coordinates. -/
def polyElem3d : IfcElement :=
  ⟨some ⟨[⟨"Body", [IfcItem.extrudedAreaSolid
      (IfcProfile.arbitraryClosed (IfcCurve.polyline poly3dPoints))
      5 ⟨[0, 0, 1]⟩]⟩]⟩⟩

/-- A document object that already carries an `ExtrusionDepth` property. -/
def wDepth : World :=
  { obj := { label := "Column", propertiesList := ["Label", "ExtrusionDepth"],
             extrusionDepth := 2500, extrusionDirection := ⟨0, 0, 1⟩,
             rectangleLength := 0, rectangleWidth := 0, polylinePoints := [] },
    edits := [] }

/-- A document object that carries a `PolylinePoints` property whose CAD value
has one more point than `polyElem2d`'s polyline, so a push-sync should create
a point entity and edit coordinates. -/
def wPoly : World :=
  { obj := { label := "Slab", propertiesList := ["Label", "PolylinePoints"],
             extrusionDepth := 0, extrusionDirection := ⟨0, 0, 0⟩,
             rectangleLength := 0, rectangleWidth := 0,
             polylinePoints := [⟨0, 0, 0⟩, ⟨4000, 0, 0⟩, ⟨4000, 3000, 0⟩, ⟨0, 3000, 0⟩] },
    edits := [] }

/-- A `Body` representation holding a single extruded rectangle profile. -/
def bodyRectRep : IfcRep :=
  ⟨"Body", [IfcItem.extrudedAreaSolid (IfcProfile.rectangle 2 3) 5 ⟨[0, 0, 1]⟩]⟩

/-- A non-`Body` representation, as wall axes have. -/
def axisRep : IfcRep :=
  ⟨"Axis", [IfcItem.otherItem "IfcCompositeCurve"]⟩


/-! ### Lemmas about the primitive operations -/

theorem ensureProp_edits (n : String) (w : World) : (ensureProp n w).edits = w.edits := by
  unfold ensureProp addProperty
  split <;> rfl

theorem ensureProp_of_mem {n : String} {w : World} (h : n ∈ w.obj.propertiesList) :
    ensureProp n w = w := by
  unfold ensureProp
  rw [if_pos h]

theorem ensureProp_mem_self (n : String) (w : World) :
    n ∈ (ensureProp n w).obj.propertiesList := by
  unfold ensureProp addProperty
  split
  · assumption
  · simp

theorem ensureProp_mem_mono {m : String} {w : World} (n : String)
    (h : m ∈ w.obj.propertiesList) : m ∈ (ensureProp n w).obj.propertiesList := by
  unfold ensureProp addProperty
  split
  · exact h
  · simpa using Or.inl h

theorem ensureProp_obj_label (n : String) (w : World) :
    (ensureProp n w).obj.label = w.obj.label := by
  unfold ensureProp addProperty
  split <;> rfl

theorem ensureProp_obj_extrusionDepth (n : String) (w : World) :
    (ensureProp n w).obj.extrusionDepth = w.obj.extrusionDepth := by
  unfold ensureProp addProperty
  split <;> rfl

theorem ensureProp_obj_extrusionDirection (n : String) (w : World) :
    (ensureProp n w).obj.extrusionDirection = w.obj.extrusionDirection := by
  unfold ensureProp addProperty
  split <;> rfl

theorem ensureProp_obj_rectangleLength (n : String) (w : World) :
    (ensureProp n w).obj.rectangleLength = w.obj.rectangleLength := by
  unfold ensureProp addProperty
  split <;> rfl

theorem ensureProp_obj_rectangleWidth (n : String) (w : World) :
    (ensureProp n w).obj.rectangleWidth = w.obj.rectangleWidth := by
  unfold ensureProp addProperty
  split <;> rfl

theorem ensureProp_obj_polylinePoints (n : String) (w : World) :
    (ensureProp n w).obj.polylinePoints = w.obj.polylinePoints := by
  unfold ensureProp addProperty
  split <;> rfl

theorem setExtrusionDepth_props (v : ℚ) (w : World) :
    (setExtrusionDepth v w).obj.propertiesList = w.obj.propertiesList := rfl

theorem setExtrusionDirection_props (v : Vec3) (w : World) :
    (setExtrusionDirection v w).obj.propertiesList = w.obj.propertiesList := rfl

theorem setRectangleLength_props (v : ℚ) (w : World) :
    (setRectangleLength v w).obj.propertiesList = w.obj.propertiesList := rfl

theorem setRectangleWidth_props (v : ℚ) (w : World) :
    (setRectangleWidth v w).obj.propertiesList = w.obj.propertiesList := rfl

theorem setPolylinePoints_props (v : List Vec3) (w : World) :
    (setPolylinePoints v w).obj.propertiesList = w.obj.propertiesList := rfl

/-! ### Lemmas about the pull-sync loop body -/

theorem addGeomPropertiesRep_rect_extrusionDepth (scaling depth xdim ydim : ℚ)
    (ratios : List ℚ) (w : World) :
    (addGeomPropertiesRep scaling
        ⟨"Body", [IfcItem.extrudedAreaSolid (IfcProfile.rectangle xdim ydim) depth ⟨ratios⟩]⟩
        w).obj.extrusionDepth = depth * scaling := by
  simp [addGeomPropertiesRep, setExtrusionDepth, setExtrusionDirection, setRectangleLength,
    setRectangleWidth, ensureProp_obj_extrusionDepth, ensureProp_obj_extrusionDirection,
    ensureProp_obj_rectangleLength, ensureProp_obj_rectangleWidth]

theorem addGeomPropertiesRep_rect_extrusionDirection (scaling depth xdim ydim : ℚ)
    (ratios : List ℚ) (w : World) :
    (addGeomPropertiesRep scaling
        ⟨"Body", [IfcItem.extrudedAreaSolid (IfcProfile.rectangle xdim ydim) depth ⟨ratios⟩]⟩
        w).obj.extrusionDirection = mkVector ratios := by
  simp [addGeomPropertiesRep, setExtrusionDepth, setExtrusionDirection, setRectangleLength,
    setRectangleWidth, ensureProp_obj_extrusionDepth, ensureProp_obj_extrusionDirection,
    ensureProp_obj_rectangleLength, ensureProp_obj_rectangleWidth]

theorem addGeomPropertiesRep_rect_rectangleLength (scaling depth xdim ydim : ℚ)
    (ratios : List ℚ) (w : World) :
    (addGeomPropertiesRep scaling
        ⟨"Body", [IfcItem.extrudedAreaSolid (IfcProfile.rectangle xdim ydim) depth ⟨ratios⟩]⟩
        w).obj.rectangleLength = xdim * scaling := by
  simp [addGeomPropertiesRep, setExtrusionDepth, setExtrusionDirection, setRectangleLength,
    setRectangleWidth, ensureProp_obj_extrusionDepth, ensureProp_obj_extrusionDirection,
    ensureProp_obj_rectangleLength, ensureProp_obj_rectangleWidth]

theorem addGeomPropertiesRep_rect_rectangleWidth (scaling depth xdim ydim : ℚ)
    (ratios : List ℚ) (w : World) :
    (addGeomPropertiesRep scaling
        ⟨"Body", [IfcItem.extrudedAreaSolid (IfcProfile.rectangle xdim ydim) depth ⟨ratios⟩]⟩
        w).obj.rectangleWidth = ydim * scaling := by
  simp [addGeomPropertiesRep, setExtrusionDepth, setExtrusionDirection, setRectangleLength,
    setRectangleWidth, ensureProp_obj_rectangleWidth]

theorem addGeomPropertiesRep_poly_polylinePoints (scaling depth : ℚ)
    (ratios : List ℚ) (pts : List IfcPoint) (w : World) :
    (addGeomPropertiesRep scaling
        ⟨"Body", [IfcItem.extrudedAreaSolid
          (IfcProfile.arbitraryClosed (IfcCurve.polyline pts)) depth ⟨ratios⟩]⟩
        w).obj.polylinePoints =
      ((pts.filter (fun p => p.length < 3)).map (fun p => p ++ [0])).map
        (fun p => (mkVector p).multiply scaling) := by
  simp [addGeomPropertiesRep, setExtrusionDepth, setExtrusionDirection, setPolylinePoints,
    ensureProp_obj_polylinePoints]

theorem addGeomPropertiesRep_solid_extrusionDepth (scaling depth : ℚ) (sa : IfcProfile)
    (ratios : List ℚ) (w : World) :
    (addGeomPropertiesRep scaling
        ⟨"Body", [IfcItem.extrudedAreaSolid sa depth ⟨ratios⟩]⟩
        w).obj.extrusionDepth = depth * scaling := by
  cases sa with
  | rectangle xdim ydim => exact addGeomPropertiesRep_rect_extrusionDepth _ _ _ _ _ _
  | arbitraryClosed c =>
    cases c with
    | polyline pts =>
      simp [addGeomPropertiesRep, setExtrusionDepth, setExtrusionDirection,
        setPolylinePoints, ensureProp_obj_extrusionDepth, ensureProp_obj_extrusionDirection,
        ensureProp_obj_polylinePoints]
    | otherCurve s =>
      simp [addGeomPropertiesRep, setExtrusionDepth, setExtrusionDirection,
        ensureProp_obj_extrusionDepth, ensureProp_obj_extrusionDirection]
  | otherProfile s =>
    simp [addGeomPropertiesRep, setExtrusionDepth, setExtrusionDirection,
      ensureProp_obj_extrusionDepth, ensureProp_obj_extrusionDirection]

theorem addGeomPropertiesRep_solid_extrusionDirection (scaling depth : ℚ) (sa : IfcProfile)
    (ratios : List ℚ) (w : World) :
    (addGeomPropertiesRep scaling
        ⟨"Body", [IfcItem.extrudedAreaSolid sa depth ⟨ratios⟩]⟩
        w).obj.extrusionDirection = mkVector ratios := by
  cases sa with
  | rectangle xdim ydim => exact addGeomPropertiesRep_rect_extrusionDirection _ _ _ _ _ _
  | arbitraryClosed c =>
    cases c with
    | polyline pts =>
      simp [addGeomPropertiesRep, setExtrusionDepth, setExtrusionDirection,
        setPolylinePoints, ensureProp_obj_extrusionDepth, ensureProp_obj_extrusionDirection,
        ensureProp_obj_polylinePoints]
    | otherCurve s =>
      simp [addGeomPropertiesRep, setExtrusionDepth, setExtrusionDirection,
        ensureProp_obj_extrusionDepth, ensureProp_obj_extrusionDirection]
  | otherProfile s =>
    simp [addGeomPropertiesRep, setExtrusionDepth, setExtrusionDirection,
      ensureProp_obj_extrusionDepth, ensureProp_obj_extrusionDirection]

/-! ### Structural lemmas for the pull-sync fold -/

theorem addGeomPropertiesRep_mem_mono (scaling : ℚ) (rep : IfcRep) {m : String} {w : World}
    (h : m ∈ w.obj.propertiesList) :
    m ∈ (addGeomPropertiesRep scaling rep w).obj.propertiesList := by
  rcases rep with ⟨id, items⟩
  by_cases hid : id = "Body"
  · subst hid
    rcases items with _ | ⟨item, _ | ⟨item2, rest⟩⟩
    · exact h
    · cases item with
      | extrudedAreaSolid sa depth dir =>
        cases sa with
        | rectangle x y =>
          unfold addGeomPropertiesRep
          rw [if_pos rfl]
          dsimp only
          rw [setRectangleWidth_props]
          apply ensureProp_mem_mono
          rw [setRectangleLength_props]
          apply ensureProp_mem_mono
          rw [setExtrusionDirection_props]
          apply ensureProp_mem_mono
          rw [setExtrusionDepth_props]
          exact ensureProp_mem_mono _ h
        | arbitraryClosed c =>
          cases c with
          | polyline pts =>
            unfold addGeomPropertiesRep
            rw [if_pos rfl]
            dsimp only
            rw [setPolylinePoints_props]
            apply ensureProp_mem_mono
            rw [setExtrusionDirection_props]
            apply ensureProp_mem_mono
            rw [setExtrusionDepth_props]
            exact ensureProp_mem_mono _ h
          | otherCurve s =>
            unfold addGeomPropertiesRep
            rw [if_pos rfl]
            dsimp only
            rw [setExtrusionDirection_props]
            apply ensureProp_mem_mono
            rw [setExtrusionDepth_props]
            exact ensureProp_mem_mono _ h
        | otherProfile s =>
          unfold addGeomPropertiesRep
          rw [if_pos rfl]
          dsimp only
          rw [setExtrusionDirection_props]
          apply ensureProp_mem_mono
          rw [setExtrusionDepth_props]
          exact ensureProp_mem_mono _ h
      | profileDef p => exact h
      | otherItem c => exact h
    · exact h
  · simpa [addGeomPropertiesRep, hid] using h

theorem addGeomPropertiesRep_edits (scaling : ℚ) (rep : IfcRep) (w : World) :
    (addGeomPropertiesRep scaling rep w).edits = w.edits := by
  rcases rep with ⟨id, items⟩
  by_cases hid : id = "Body"
  · subst hid
    rcases items with _ | ⟨item, _ | ⟨item2, rest⟩⟩
    · rfl
    · cases item with
      | extrudedAreaSolid sa depth dir =>
        cases sa with
        | rectangle x y =>
          simp [addGeomPropertiesRep, setExtrusionDepth, setExtrusionDirection,
            setRectangleLength, setRectangleWidth, ensureProp_edits]
        | arbitraryClosed c =>
          cases c with
          | polyline pts =>
            simp [addGeomPropertiesRep, setExtrusionDepth, setExtrusionDirection,
              setPolylinePoints, ensureProp_edits]
          | otherCurve s =>
            simp [addGeomPropertiesRep, setExtrusionDepth, setExtrusionDirection,
              ensureProp_edits]
        | otherProfile s =>
          simp [addGeomPropertiesRep, setExtrusionDepth, setExtrusionDirection,
            ensureProp_edits]
      | profileDef p => rfl
      | otherItem c => rfl
    · rfl
  · simp [addGeomPropertiesRep, hid]

theorem addGeomPropertiesRep_not_matches {rep : IfcRep} (h : pullMatches rep = false)
    (scaling : ℚ) (w : World) : addGeomPropertiesRep scaling rep w = w := by
  rcases rep with ⟨id, items⟩
  by_cases hid : id = "Body"
  · subst hid
    rcases items with _ | ⟨item, _ | ⟨item2, rest⟩⟩
    · rfl
    · cases item with
      | extrudedAreaSolid sa depth dir => simp [pullMatches] at h
      | profileDef p => rfl
      | otherItem c => rfl
    · rfl
  · simp [addGeomPropertiesRep, hid]

theorem addGeomPropertiesRep_required (scaling : ℚ) (rep : IfcRep) (w : World) :
    ∀ m ∈ requiredNames rep, m ∈ (addGeomPropertiesRep scaling rep w).obj.propertiesList := by
  rcases rep with ⟨id, items⟩
  by_cases hid : id = "Body"
  · subst hid
    rcases items with _ | ⟨item, _ | ⟨item2, rest⟩⟩
    · intro m hm; simp [requiredNames] at hm
    · cases item with
      | extrudedAreaSolid sa depth dir =>
        cases sa with
        | rectangle x y =>
          intro m hm
          simp [requiredNames] at hm
          unfold addGeomPropertiesRep
          rw [if_pos rfl]
          dsimp only
          rcases hm with rfl | rfl | rfl | rfl
          · rw [setRectangleWidth_props]
            apply ensureProp_mem_mono
            rw [setRectangleLength_props]
            apply ensureProp_mem_mono
            rw [setExtrusionDirection_props]
            apply ensureProp_mem_mono
            rw [setExtrusionDepth_props]
            exact ensureProp_mem_self _ _
          · rw [setRectangleWidth_props]
            apply ensureProp_mem_mono
            rw [setRectangleLength_props]
            apply ensureProp_mem_mono
            rw [setExtrusionDirection_props]
            exact ensureProp_mem_self _ _
          · rw [setRectangleWidth_props]
            apply ensureProp_mem_mono
            rw [setRectangleLength_props]
            exact ensureProp_mem_self _ _
          · rw [setRectangleWidth_props]
            exact ensureProp_mem_self _ _
        | arbitraryClosed c =>
          cases c with
          | polyline pts =>
            intro m hm
            simp [requiredNames] at hm
            unfold addGeomPropertiesRep
            rw [if_pos rfl]
            dsimp only
            rcases hm with rfl | rfl | rfl
            · rw [setPolylinePoints_props]
              apply ensureProp_mem_mono
              rw [setExtrusionDirection_props]
              apply ensureProp_mem_mono
              rw [setExtrusionDepth_props]
              exact ensureProp_mem_self _ _
            · rw [setPolylinePoints_props]
              apply ensureProp_mem_mono
              rw [setExtrusionDirection_props]
              exact ensureProp_mem_self _ _
            · rw [setPolylinePoints_props]
              exact ensureProp_mem_self _ _
          | otherCurve s =>
            intro m hm
            simp [requiredNames] at hm
            unfold addGeomPropertiesRep
            rw [if_pos rfl]
            dsimp only
            rcases hm with rfl | rfl
            · rw [setExtrusionDirection_props]
              apply ensureProp_mem_mono
              rw [setExtrusionDepth_props]
              exact ensureProp_mem_self _ _
            · rw [setExtrusionDirection_props]
              exact ensureProp_mem_self _ _
        | otherProfile s =>
          intro m hm
          simp [requiredNames] at hm
          unfold addGeomPropertiesRep
          rw [if_pos rfl]
          dsimp only
          rcases hm with rfl | rfl
          · rw [setExtrusionDirection_props]
            apply ensureProp_mem_mono
            rw [setExtrusionDepth_props]
            exact ensureProp_mem_self _ _
          · rw [setExtrusionDirection_props]
            exact ensureProp_mem_self _ _
      | profileDef p => intro m hm; simp [requiredNames] at hm
      | otherItem c => intro m hm; simp [requiredNames] at hm
    · intro m hm; simp [requiredNames] at hm
  · intro m hm; simp [requiredNames, hid] at hm

theorem addGeomPropertiesRep_props_stable (scaling : ℚ) (rep : IfcRep) (w : World)
    (h : ∀ m ∈ requiredNames rep, m ∈ w.obj.propertiesList) :
    (addGeomPropertiesRep scaling rep w).obj.propertiesList = w.obj.propertiesList := by
  rcases rep with ⟨id, items⟩
  by_cases hid : id = "Body"
  · subst hid
    rcases items with _ | ⟨item, _ | ⟨item2, rest⟩⟩
    · rfl
    · cases item with
      | extrudedAreaSolid sa depth dir =>
        cases sa with
        | rectangle x y =>
          have hED : "ExtrusionDepth" ∈ w.obj.propertiesList := h _ (by simp [requiredNames])
          have hEDi : "ExtrusionDirection" ∈ w.obj.propertiesList :=
            h _ (by simp [requiredNames])
          have hRL : "RectangleLength" ∈ w.obj.propertiesList := h _ (by simp [requiredNames])
          have hRW : "RectangleWidth" ∈ w.obj.propertiesList := h _ (by simp [requiredNames])
          unfold addGeomPropertiesRep
          rw [if_pos rfl]
          dsimp only
          rw [ensureProp_of_mem hED,
            ensureProp_of_mem (show "ExtrusionDirection" ∈
              (setExtrusionDepth (depth * scaling) w).obj.propertiesList from hEDi),
            ensureProp_of_mem (show "RectangleLength" ∈
              (setExtrusionDirection (mkVector dir.directionRatios)
                (setExtrusionDepth (depth * scaling) w)).obj.propertiesList from hRL),
            ensureProp_of_mem (show "RectangleWidth" ∈
              (setRectangleLength (x * scaling) (setExtrusionDirection
                (mkVector dir.directionRatios)
                (setExtrusionDepth (depth * scaling) w))).obj.propertiesList from hRW)]
          rfl
        | arbitraryClosed c =>
          cases c with
          | polyline pts =>
            have hED : "ExtrusionDepth" ∈ w.obj.propertiesList := h _ (by simp [requiredNames])
            have hEDi : "ExtrusionDirection" ∈ w.obj.propertiesList :=
              h _ (by simp [requiredNames])
            have hPP : "PolylinePoints" ∈ w.obj.propertiesList := h _ (by simp [requiredNames])
            unfold addGeomPropertiesRep
            rw [if_pos rfl]
            dsimp only
            rw [ensureProp_of_mem hED,
              ensureProp_of_mem (show "ExtrusionDirection" ∈
                (setExtrusionDepth (depth * scaling) w).obj.propertiesList from hEDi),
              ensureProp_of_mem (show "PolylinePoints" ∈
                (setExtrusionDirection (mkVector dir.directionRatios)
                  (setExtrusionDepth (depth * scaling) w)).obj.propertiesList from hPP)]
            rfl
          | otherCurve s =>
            have hED : "ExtrusionDepth" ∈ w.obj.propertiesList := h _ (by simp [requiredNames])
            have hEDi : "ExtrusionDirection" ∈ w.obj.propertiesList :=
              h _ (by simp [requiredNames])
            unfold addGeomPropertiesRep
            rw [if_pos rfl]
            dsimp only
            rw [ensureProp_of_mem hED,
              ensureProp_of_mem (show "ExtrusionDirection" ∈
                (setExtrusionDepth (depth * scaling) w).obj.propertiesList from hEDi)]
            rfl
        | otherProfile s =>
          have hED : "ExtrusionDepth" ∈ w.obj.propertiesList := h _ (by simp [requiredNames])
          have hEDi : "ExtrusionDirection" ∈ w.obj.propertiesList :=
            h _ (by simp [requiredNames])
          unfold addGeomPropertiesRep
          rw [if_pos rfl]
          dsimp only
          rw [ensureProp_of_mem hED,
            ensureProp_of_mem (show "ExtrusionDirection" ∈
              (setExtrusionDepth (depth * scaling) w).obj.propertiesList from hEDi)]
          rfl
      | profileDef p => rfl
      | otherItem c => rfl
    · rfl
  · simp [addGeomPropertiesRep, hid]

theorem foldl_rep_edits (scaling : ℚ) (reps : List IfcRep) :
    ∀ w : World,
      (reps.foldl (fun w rep => addGeomPropertiesRep scaling rep w) w).edits = w.edits := by
  induction reps with
  | nil => intro w; rfl
  | cons r rest ih =>
    intro w
    rw [List.foldl_cons, ih, addGeomPropertiesRep_edits]

theorem foldl_rep_mem_mono (scaling : ℚ) (reps : List IfcRep) :
    ∀ {m : String} {w : World}, m ∈ w.obj.propertiesList →
      m ∈ (reps.foldl (fun w rep => addGeomPropertiesRep scaling rep w) w).obj.propertiesList := by
  induction reps with
  | nil => intro m w h; exact h
  | cons r rest ih =>
    intro m w h
    rw [List.foldl_cons]
    exact ih (addGeomPropertiesRep_mem_mono scaling r h)

theorem foldl_rep_required (scaling : ℚ) (reps : List IfcRep) :
    ∀ (w : World), ∀ r ∈ reps, ∀ m ∈ requiredNames r,
      m ∈ (reps.foldl (fun w rep => addGeomPropertiesRep scaling rep w) w).obj.propertiesList := by
  induction reps with
  | nil => intro w r hr; exact absurd hr (List.not_mem_nil r)
  | cons r0 rest ih =>
    intro w r hr m hm
    rw [List.foldl_cons]
    rcases List.mem_cons.mp hr with rfl | hr'
    · exact foldl_rep_mem_mono scaling rest
        (addGeomPropertiesRep_required scaling r w m hm)
    · exact ih _ r hr' m hm

theorem foldl_rep_props_stable (scaling : ℚ) (reps : List IfcRep) :
    ∀ (w : World), (∀ r ∈ reps, ∀ m ∈ requiredNames r, m ∈ w.obj.propertiesList) →
      (reps.foldl (fun w rep => addGeomPropertiesRep scaling rep w) w).obj.propertiesList =
        w.obj.propertiesList := by
  induction reps with
  | nil => intro w _; rfl
  | cons r0 rest ih =>
    intro w h
    rw [List.foldl_cons]
    have h0 : (addGeomPropertiesRep scaling r0 w).obj.propertiesList =
        w.obj.propertiesList :=
      addGeomPropertiesRep_props_stable scaling r0 w (h r0 (List.mem_cons_self r0 rest))
    have hrest : ∀ r ∈ rest, ∀ m ∈ requiredNames r,
        m ∈ (addGeomPropertiesRep scaling r0 w).obj.propertiesList := by
      intro r hr m hm
      rw [h0]
      exact h r (List.mem_cons_of_mem r0 hr) m hm
    rw [ih _ hrest, h0]

theorem foldl_rep_id (scaling : ℚ) (reps : List IfcRep) :
    ∀ (w : World), (∀ r ∈ reps, pullMatches r = false) →
      reps.foldl (fun w rep => addGeomPropertiesRep scaling rep w) w = w := by
  induction reps with
  | nil => intro w _; rfl
  | cons r0 rest ih =>
    intro w h
    rw [List.foldl_cons, addGeomPropertiesRep_not_matches (h r0 (List.mem_cons_self r0 rest))]
    exact ih _ (fun r hr => h r (List.mem_cons_of_mem r0 hr))

/-! ### Lemmas about the push-sync loops -/

theorem setDepthLoop_skip {r : IfcRep} (h : pushMatches "ExtrusionDepth" r = false)
    (v : ℚ) (rest : List IfcRep) (i : ℕ) (w : World) :
    setDepthLoop v (r :: rest) i w = setDepthLoop v rest (i + 1) w := by
  rcases r with ⟨id, items⟩
  by_cases hid : id = "Body"
  · subst hid
    rcases items with _ | ⟨item, _ | ⟨item2, rest2⟩⟩
    · rfl
    · cases item with
      | extrudedAreaSolid sa depth dir => simp [pushMatches] at h
      | profileDef p => rfl
      | otherItem c => rfl
    · rfl
  · simp [setDepthLoop, hid]

theorem setDepthLoop_hit {r : IfcRep} (h : pushMatches "ExtrusionDepth" r = true)
    (v : ℚ) (rest : List IfcRep) (i : ℕ) (w : World) :
    setDepthLoop v (r :: rest) i w =
      (apiRun (IfcEdit.editAttributes (EditTarget.solid i) "Depth" (AttrValue.num v)) w,
        true) := by
  rcases r with ⟨id, items⟩
  by_cases hid : id = "Body"
  · subst hid
    rcases items with _ | ⟨item, _ | ⟨item2, rest2⟩⟩
    · simp [pushMatches] at h
    · cases item with
      | extrudedAreaSolid sa depth dir => rfl
      | profileDef p => simp [pushMatches] at h
      | otherItem c => simp [pushMatches] at h
    · simp [pushMatches] at h
  · simp [pushMatches, hid] at h

theorem setDepthLoop_no_match (v : ℚ) (reps : List IfcRep) :
    ∀ (i : ℕ) (w : World), (∀ r ∈ reps, pushMatches "ExtrusionDepth" r = false) →
      setDepthLoop v reps i w = (w, false) := by
  induction reps with
  | nil => intro i w _; rfl
  | cons r rest ih =>
    intro i w h
    rw [setDepthLoop_skip (h r (List.mem_cons_self r rest))]
    exact ih _ _ (fun r' hr' => h r' (List.mem_cons_of_mem r hr'))

theorem setDepthLoop_first_match (v : ℚ) (pre : List IfcRep) :
    ∀ (r : IfcRep) (post : List IfcRep) (i : ℕ) (w : World),
      (∀ r' ∈ pre, pushMatches "ExtrusionDepth" r' = false) →
      pushMatches "ExtrusionDepth" r = true →
      setDepthLoop v (pre ++ r :: post) i w =
        (apiRun (IfcEdit.editAttributes (EditTarget.solid (i + pre.length)) "Depth"
          (AttrValue.num v)) w, true) := by
  induction pre with
  | nil =>
    intro r post i w _ hr
    rw [List.nil_append, setDepthLoop_hit hr]
    rfl
  | cons p ps ih =>
    intro r post i w hpre hr
    rw [List.cons_append, setDepthLoop_skip (hpre p (List.mem_cons_self p ps)),
      ih r post (i + 1) w (fun r' h' => hpre r' (List.mem_cons_of_mem p h')) hr]
    have heq : i + 1 + ps.length = i + (p :: ps).length := by
      simp [List.length_cons]
      omega
    rw [heq]

theorem setDepthLoop_obj (v : ℚ) (reps : List IfcRep) :
    ∀ (i : ℕ) (w : World), (setDepthLoop v reps i w).1.obj = w.obj := by
  induction reps with
  | nil => intro i w; rfl
  | cons r rest ih =>
    intro i w
    by_cases h : pushMatches "ExtrusionDepth" r = true
    · rw [setDepthLoop_hit h]
      rfl
    · rw [setDepthLoop_skip (Bool.not_eq_true _ ▸ h : pushMatches "ExtrusionDepth" r = false)]
      exact ih _ _

theorem setDirectionLoop_skip {r : IfcRep} (h : pushMatches "ExtrusionDirection" r = false)
    (v : List ℚ) (rest : List IfcRep) (i : ℕ) (w : World) :
    setDirectionLoop v (r :: rest) i w = setDirectionLoop v rest (i + 1) w := by
  rcases r with ⟨id, items⟩
  by_cases hid : id = "Body"
  · subst hid
    rcases items with _ | ⟨item, _ | ⟨item2, rest2⟩⟩
    · rfl
    · cases item with
      | extrudedAreaSolid sa depth dir =>
        simp [pushMatches] at h
      | profileDef p => rfl
      | otherItem c => rfl
    · rfl
  · simp [setDirectionLoop, hid]

theorem setDirectionLoop_hit {r : IfcRep} (h : pushMatches "ExtrusionDirection" r = true)
    (v : List ℚ) (rest : List IfcRep) (i : ℕ) (w : World) :
    setDirectionLoop v (r :: rest) i w =
      (apiRun (IfcEdit.editAttributes (EditTarget.direction i) "DirectionRatios" (AttrValue.tuple v)) w,
        true) := by
  rcases r with ⟨id, items⟩
  by_cases hid : id = "Body"
  · subst hid
    rcases items with _ | ⟨item, _ | ⟨item2, rest2⟩⟩
    · simp [pushMatches] at h
    · cases item with
      | extrudedAreaSolid sa depth dir =>
        rfl
      | profileDef p => simp [pushMatches] at h
      | otherItem c => simp [pushMatches] at h
    · simp [pushMatches] at h
  · simp [pushMatches, hid] at h

theorem setDirectionLoop_no_match (v : List ℚ) (reps : List IfcRep) :
    ∀ (i : ℕ) (w : World), (∀ r ∈ reps, pushMatches "ExtrusionDirection" r = false) →
      setDirectionLoop v reps i w = (w, false) := by
  induction reps with
  | nil => intro i w _; rfl
  | cons r rest ih =>
    intro i w h
    rw [setDirectionLoop_skip (h r (List.mem_cons_self r rest))]
    exact ih _ _ (fun r' hr' => h r' (List.mem_cons_of_mem r hr'))

theorem setDirectionLoop_first_match (v : List ℚ) (pre : List IfcRep) :
    ∀ (r : IfcRep) (post : List IfcRep) (i : ℕ) (w : World),
      (∀ r' ∈ pre, pushMatches "ExtrusionDirection" r' = false) →
      pushMatches "ExtrusionDirection" r = true →
      setDirectionLoop v (pre ++ r :: post) i w =
        (apiRun (IfcEdit.editAttributes (EditTarget.direction (i + pre.length)) "DirectionRatios"
          (AttrValue.tuple v)) w, true) := by
  induction pre with
  | nil =>
    intro r post i w _ hr
    rw [List.nil_append, setDirectionLoop_hit hr]
    rfl
  | cons p ps ih =>
    intro r post i w hpre hr
    rw [List.cons_append, setDirectionLoop_skip (hpre p (List.mem_cons_self p ps)),
      ih r post (i + 1) w (fun r' h' => hpre r' (List.mem_cons_of_mem p h')) hr]
    have heq : i + 1 + ps.length = i + (p :: ps).length := by
      simp [List.length_cons]
      omega
    rw [heq]

theorem setDirectionLoop_obj (v : List ℚ) (reps : List IfcRep) :
    ∀ (i : ℕ) (w : World), (setDirectionLoop v reps i w).1.obj = w.obj := by
  induction reps with
  | nil => intro i w; rfl
  | cons r rest ih =>
    intro i w
    by_cases h : pushMatches "ExtrusionDirection" r = true
    · rw [setDirectionLoop_hit h]
      rfl
    · rw [setDirectionLoop_skip (Bool.not_eq_true _ ▸ h : pushMatches "ExtrusionDirection" r = false)]
      exact ih _ _

theorem setRectLengthLoop_skip {r : IfcRep} (h : pushMatches "RectangleLength" r = false)
    (v : ℚ) (rest : List IfcRep) (i : ℕ) (w : World) :
    setRectLengthLoop v (r :: rest) i w = setRectLengthLoop v rest (i + 1) w := by
  rcases r with ⟨id, items⟩
  by_cases hid : id = "Body"
  · subst hid
    rcases items with _ | ⟨item, _ | ⟨item2, rest2⟩⟩
    · rfl
    · cases item with
      | extrudedAreaSolid sa depth dir =>
        cases sa with
        | rectangle x y => simp [pushMatches] at h
        | arbitraryClosed c => rfl
        | otherProfile s => rfl
      | profileDef p => rfl
      | otherItem c => rfl
    · rfl
  · simp [setRectLengthLoop, hid]

theorem setRectLengthLoop_hit {r : IfcRep} (h : pushMatches "RectangleLength" r = true)
    (v : ℚ) (rest : List IfcRep) (i : ℕ) (w : World) :
    setRectLengthLoop v (r :: rest) i w =
      (apiRun (IfcEdit.editAttributes (EditTarget.sweptArea i) "XDim" (AttrValue.num v)) w,
        true) := by
  rcases r with ⟨id, items⟩
  by_cases hid : id = "Body"
  · subst hid
    rcases items with _ | ⟨item, _ | ⟨item2, rest2⟩⟩
    · simp [pushMatches] at h
    · cases item with
      | extrudedAreaSolid sa depth dir =>
        cases sa with
        | rectangle x y => rfl
        | arbitraryClosed c => simp [pushMatches] at h
        | otherProfile s => simp [pushMatches] at h
      | profileDef p => simp [pushMatches] at h
      | otherItem c => simp [pushMatches] at h
    · simp [pushMatches] at h
  · simp [pushMatches, hid] at h

theorem setRectLengthLoop_no_match (v : ℚ) (reps : List IfcRep) :
    ∀ (i : ℕ) (w : World), (∀ r ∈ reps, pushMatches "RectangleLength" r = false) →
      setRectLengthLoop v reps i w = (w, false) := by
  induction reps with
  | nil => intro i w _; rfl
  | cons r rest ih =>
    intro i w h
    rw [setRectLengthLoop_skip (h r (List.mem_cons_self r rest))]
    exact ih _ _ (fun r' hr' => h r' (List.mem_cons_of_mem r hr'))

theorem setRectLengthLoop_first_match (v : ℚ) (pre : List IfcRep) :
    ∀ (r : IfcRep) (post : List IfcRep) (i : ℕ) (w : World),
      (∀ r' ∈ pre, pushMatches "RectangleLength" r' = false) →
      pushMatches "RectangleLength" r = true →
      setRectLengthLoop v (pre ++ r :: post) i w =
        (apiRun (IfcEdit.editAttributes (EditTarget.sweptArea (i + pre.length)) "XDim"
          (AttrValue.num v)) w, true) := by
  induction pre with
  | nil =>
    intro r post i w _ hr
    rw [List.nil_append, setRectLengthLoop_hit hr]
    rfl
  | cons p ps ih =>
    intro r post i w hpre hr
    rw [List.cons_append, setRectLengthLoop_skip (hpre p (List.mem_cons_self p ps)),
      ih r post (i + 1) w (fun r' h' => hpre r' (List.mem_cons_of_mem p h')) hr]
    have heq : i + 1 + ps.length = i + (p :: ps).length := by
      simp [List.length_cons]
      omega
    rw [heq]

theorem setRectLengthLoop_obj (v : ℚ) (reps : List IfcRep) :
    ∀ (i : ℕ) (w : World), (setRectLengthLoop v reps i w).1.obj = w.obj := by
  induction reps with
  | nil => intro i w; rfl
  | cons r rest ih =>
    intro i w
    by_cases h : pushMatches "RectangleLength" r = true
    · rw [setRectLengthLoop_hit h]
      rfl
    · rw [setRectLengthLoop_skip (Bool.not_eq_true _ ▸ h : pushMatches "RectangleLength" r = false)]
      exact ih _ _

theorem setRectWidthLoop_skip {r : IfcRep} (h : pushMatches "RectangleWidth" r = false)
    (v : ℚ) (rest : List IfcRep) (i : ℕ) (w : World) :
    setRectWidthLoop v (r :: rest) i w = setRectWidthLoop v rest (i + 1) w := by
  rcases r with ⟨id, items⟩
  by_cases hid : id = "Body"
  · subst hid
    rcases items with _ | ⟨item, _ | ⟨item2, rest2⟩⟩
    · rfl
    · cases item with
      | extrudedAreaSolid sa depth dir =>
        cases sa with
        | rectangle x y => simp [pushMatches] at h
        | arbitraryClosed c => rfl
        | otherProfile s => rfl
      | profileDef p => rfl
      | otherItem c => rfl
    · rfl
  · simp [setRectWidthLoop, hid]

theorem setRectWidthLoop_hit {r : IfcRep} (h : pushMatches "RectangleWidth" r = true)
    (v : ℚ) (rest : List IfcRep) (i : ℕ) (w : World) :
    setRectWidthLoop v (r :: rest) i w =
      (apiRun (IfcEdit.editAttributes (EditTarget.sweptArea i) "YDim" (AttrValue.num v)) w,
        true) := by
  rcases r with ⟨id, items⟩
  by_cases hid : id = "Body"
  · subst hid
    rcases items with _ | ⟨item, _ | ⟨item2, rest2⟩⟩
    · simp [pushMatches] at h
    · cases item with
      | extrudedAreaSolid sa depth dir =>
        cases sa with
        | rectangle x y => rfl
        | arbitraryClosed c => simp [pushMatches] at h
        | otherProfile s => simp [pushMatches] at h
      | profileDef p => simp [pushMatches] at h
      | otherItem c => simp [pushMatches] at h
    · simp [pushMatches] at h
  · simp [pushMatches, hid] at h

theorem setRectWidthLoop_no_match (v : ℚ) (reps : List IfcRep) :
    ∀ (i : ℕ) (w : World), (∀ r ∈ reps, pushMatches "RectangleWidth" r = false) →
      setRectWidthLoop v reps i w = (w, false) := by
  induction reps with
  | nil => intro i w _; rfl
  | cons r rest ih =>
    intro i w h
    rw [setRectWidthLoop_skip (h r (List.mem_cons_self r rest))]
    exact ih _ _ (fun r' hr' => h r' (List.mem_cons_of_mem r hr'))

theorem setRectWidthLoop_first_match (v : ℚ) (pre : List IfcRep) :
    ∀ (r : IfcRep) (post : List IfcRep) (i : ℕ) (w : World),
      (∀ r' ∈ pre, pushMatches "RectangleWidth" r' = false) →
      pushMatches "RectangleWidth" r = true →
      setRectWidthLoop v (pre ++ r :: post) i w =
        (apiRun (IfcEdit.editAttributes (EditTarget.sweptArea (i + pre.length)) "YDim"
          (AttrValue.num v)) w, true) := by
  induction pre with
  | nil =>
    intro r post i w _ hr
    rw [List.nil_append, setRectWidthLoop_hit hr]
    rfl
  | cons p ps ih =>
    intro r post i w hpre hr
    rw [List.cons_append, setRectWidthLoop_skip (hpre p (List.mem_cons_self p ps)),
      ih r post (i + 1) w (fun r' h' => hpre r' (List.mem_cons_of_mem p h')) hr]
    have heq : i + 1 + ps.length = i + (p :: ps).length := by
      simp [List.length_cons]
      omega
    rw [heq]

theorem setRectWidthLoop_obj (v : ℚ) (reps : List IfcRep) :
    ∀ (i : ℕ) (w : World), (setRectWidthLoop v reps i w).1.obj = w.obj := by
  induction reps with
  | nil => intro i w; rfl
  | cons r rest ih =>
    intro i w
    by_cases h : pushMatches "RectangleWidth" r = true
    · rw [setRectWidthLoop_hit h]
      rfl
    · rw [setRectWidthLoop_skip (Bool.not_eq_true _ ▸ h : pushMatches "RectangleWidth" r = false)]
      exact ih _ _

theorem setPolylineLoop_skip {r : IfcRep} (h : pushMatches "PolylinePoints" r = false)
    (rest : List IfcRep) (i : ℕ) (w : World) :
    setPolylineLoop (r :: rest) i w = setPolylineLoop rest (i + 1) w := by
  rcases r with ⟨id, items⟩
  by_cases hid : id = "Body"
  · subst hid
    rcases items with _ | ⟨item, _ | ⟨item2, rest2⟩⟩
    · rfl
    · cases item with
      | extrudedAreaSolid sa depth dir => rfl
      | profileDef p =>
        cases p with
        | rectangle x y => rfl
        | arbitraryClosed c => simp [pushMatches] at h
        | otherProfile s => rfl
      | otherItem c => rfl
    · rfl
  · simp [setPolylineLoop, hid]

theorem setPolylineLoop_hit {r : IfcRep} (h : pushMatches "PolylinePoints" r = true)
    (rest : List IfcRep) (i : ℕ) (w : World) :
    setPolylineLoop (r :: rest) i w = none := by
  rcases r with ⟨id, items⟩
  by_cases hid : id = "Body"
  · subst hid
    rcases items with _ | ⟨item, _ | ⟨item2, rest2⟩⟩
    · simp [pushMatches] at h
    · cases item with
      | extrudedAreaSolid sa depth dir => simp [pushMatches] at h
      | profileDef p =>
        cases p with
        | rectangle x y => simp [pushMatches] at h
        | arbitraryClosed c => rfl
        | otherProfile s => simp [pushMatches] at h
      | otherItem c => simp [pushMatches] at h
    · simp [pushMatches] at h
  · simp [pushMatches, hid] at h

theorem setPolylineLoop_no_match (reps : List IfcRep) :
    ∀ (i : ℕ) (w : World), (∀ r ∈ reps, pushMatches "PolylinePoints" r = false) →
      setPolylineLoop reps i w = some (w, false) := by
  induction reps with
  | nil => intro i w _; rfl
  | cons r rest ih =>
    intro i w h
    rw [setPolylineLoop_skip (h r (List.mem_cons_self r rest))]
    exact ih _ _ (fun r' hr' => h r' (List.mem_cons_of_mem r hr'))

theorem setPolylineLoop_obj (reps : List IfcRep) :
    ∀ (i : ℕ) (w : World), outObj w (setPolylineLoop reps i w) = w.obj := by
  induction reps with
  | nil => intro i w; rfl
  | cons r rest ih =>
    intro i w
    by_cases h : pushMatches "PolylinePoints" r = true
    · rw [setPolylineLoop_hit h]
      rfl
    · rw [setPolylineLoop_skip (Bool.not_eq_true _ ▸ h : pushMatches "PolylinePoints" r = false)]
      exact ih _ _

/-! ### Lemmas about the top-level sync functions -/

theorem addGeomProperties_edits (element : Option IfcElement) (u : ℚ) (w : World) :
    (addGeomProperties element u w).edits = w.edits := by
  rcases element with _ | ⟨_ | ⟨reps⟩⟩
  · rfl
  · rfl
  · exact foldl_rep_edits _ _ _

theorem addGeomProperties_id (element : Option IfcElement) (u : ℚ) (w : World)
    (h : hasRepresentation element = false ∨ ∀ rep ∈ repsOf element, pullMatches rep = false) :
    addGeomProperties element u w = w := by
  rcases element with _ | ⟨_ | ⟨reps⟩⟩
  · rfl
  · rfl
  · rcases h with h | h
    · simp [hasRepresentation] at h
    · exact foldl_rep_id _ _ _ h

theorem setGeomProperty_obj (element : Option IfcElement) (u : ℚ) (prop : String)
    (w : World) : outObj w (setGeomProperty element u prop w) = w.obj := by
  rcases element with _ | ⟨_ | ⟨reps⟩⟩
  · rfl
  · rfl
  · unfold setGeomProperty
    dsimp only
    split_ifs
    · rfl
    · exact setDepthLoop_obj _ _ _ _
    · exact setDirectionLoop_obj _ _ _ _
    · exact setRectLengthLoop_obj _ _ _ _
    · exact setRectWidthLoop_obj _ _ _ _
    · exact setPolylineLoop_obj _ _ _
    · rfl
    · rfl

theorem setGeomProperty_no_rep {element : Option IfcElement}
    (h : hasRepresentation element = false) (u : ℚ) (prop : String) (w : World) :
    setGeomProperty element u prop w = some (w, false) := by
  rcases element with _ | ⟨_ | ⟨reps⟩⟩
  · rfl
  · rfl
  · simp [hasRepresentation] at h

theorem setGeomProperty_no_match (element : Option IfcElement) {u : ℚ} {prop : String}
    (w : World) (hu : u ≠ 0) (hmem : prop ∈ w.obj.propertiesList)
    (h : ∀ rep ∈ repsOf element, pushMatches prop rep = false) :
    setGeomProperty element u prop w = some (w, false) := by
  rcases element with _ | ⟨_ | ⟨shape⟩⟩
  · rfl
  · rfl
  · dsimp only [repsOf] at h
    unfold setGeomProperty
    dsimp only
    rw [if_neg hu, if_pos hmem]
    by_cases h1 : prop = "ExtrusionDepth"
    · subst h1
      rw [if_pos rfl, setDepthLoop_no_match _ _ _ _ h]
    · rw [if_neg h1]
      by_cases h2 : prop = "ExtrusionDirection"
      · subst h2
        rw [if_pos rfl, setDirectionLoop_no_match _ _ _ _ h]
      · rw [if_neg h2]
        by_cases h3 : prop = "RectangleLength"
        · subst h3
          rw [if_pos rfl, setRectLengthLoop_no_match _ _ _ _ h]
        · rw [if_neg h3]
          by_cases h4 : prop = "RectangleWidth"
          · subst h4
            rw [if_pos rfl, setRectWidthLoop_no_match _ _ _ _ h]
          · rw [if_neg h4]
            by_cases h5 : prop = "PolylinePoints"
            · subst h5
              rw [if_pos rfl, setPolylineLoop_no_match _ _ _ h]
            · rw [if_neg h5]

theorem setGeomProperty_unhandled (element : Option IfcElement) {u : ℚ} {prop : String}
    (w : World) (hu : u ≠ 0) (hmem : prop ∈ w.obj.propertiesList)
    (hng : prop ∉ geomProps) :
    setGeomProperty element u prop w = some (w, false) := by
  simp only [geomProps, List.mem_cons, List.not_mem_nil, or_false, not_or] at hng
  obtain ⟨h1, h2, h3, h4, h5⟩ := hng
  rcases element with _ | ⟨_ | ⟨reps⟩⟩
  · rfl
  · rfl
  · unfold setGeomProperty
    dsimp only
    rw [if_neg hu, if_pos hmem, if_neg h1, if_neg h2, if_neg h3, if_neg h4, if_neg h5]

/-! ### Claim theorems -/

/-- Claim C5: the pull-sync and push-sync unit conversions are mutually
inverse: for every length `d` and every nonzero unit scale `s`, scaling `d` by
the pull factor (`s * 1000`) and then by the push factor (`0.001 / s`) yields
`d` again, over exact rational arithmetic. -/
theorem scale_factors_inverse (d s : ℚ) (h : s ≠ 0) :
    d * pullScale s * pushScale s = d := by
  unfold pullScale pushScale
  rw [show (0.001 : ℚ) = 1 / 1000 by norm_num]
  field_simp
  left
  ring

theorem scale_factors_inverse_witness :
    (2 : ℚ) ≠ 0 ∧ (7 : ℚ) * pullScale 2 * pushScale 2 = 7 :=
  ⟨by decide, scale_factors_inverse 7 2 (by decide)⟩

/-- Claim C6: `add_geom_properties` creates each of the five geometry
properties lazily (`addProperty` fires only for a name missing from
`PropertiesList`), so a second call on the same object adds no new properties
and leaves the property set unchanged. -/
theorem add_geom_properties_lazy_idempotent (element : Option IfcElement) (u : ℚ)
    (w : World) :
    (addGeomProperties element u (addGeomProperties element u w)).obj.propertiesList =
      (addGeomProperties element u w).obj.propertiesList := by
  rcases element with _ | ⟨_ | ⟨shape⟩⟩
  · rfl
  · rfl
  · unfold addGeomProperties
    dsimp only
    apply foldl_rep_props_stable
    intro r hr m hm
    exact foldl_rep_required _ _ _ r hr m hm

/-- Claim C7: the two sync directions are disjoint in effect:
`add_geom_properties` writes only properties of the CAD object and never
issues an edit to the IFC file (the edit log is unchanged for every input),
while `set_geom_property` issues edits only to the IFC file and never adds or
modifies a property of the CAD object (the object is unchanged for every
input, also when the call raises). -/
theorem sync_directions_disjoint (element : Option IfcElement) (u : ℚ) (prop : String)
    (w : World) :
    (addGeomProperties element u w).edits = w.edits ∧
    outObj w (setGeomProperty element u prop w) = w.obj :=
  ⟨addGeomProperties_edits element u w, setGeomProperty_obj element u prop w⟩

/-- Claim C3: silent no-ops. Without a representation, `add_geom_properties`
returns without adding or changing any property and `set_geom_property`
returns `False` without issuing any IFC edit; `set_geom_property` also returns
`False` without edits when no body representation's shape matches the
requested property, and when the property name is not one of the five handled
geometry properties. (The last two cases assume a nonzero unit scale and that
the changed property exists on the object, since lines 128 and 130 would
otherwise raise.) -/
theorem sync_silent_no_op (element : Option IfcElement) (u : ℚ) (prop : String)
    (w : World) :
    ((hasRepresentation element = false ∨
        ∀ rep ∈ repsOf element, pullMatches rep = false) →
      addGeomProperties element u w = w) ∧
    (hasRepresentation element = false →
      setGeomProperty element u prop w = some (w, false)) ∧
    (u ≠ 0 → prop ∈ w.obj.propertiesList →
      (∀ rep ∈ repsOf element, pushMatches prop rep = false) →
      setGeomProperty element u prop w = some (w, false)) ∧
    (u ≠ 0 → prop ∈ w.obj.propertiesList → prop ∉ geomProps →
      setGeomProperty element u prop w = some (w, false)) :=
  ⟨fun h => addGeomProperties_id element u w h,
   fun h => setGeomProperty_no_rep h u prop w,
   fun hu hm h => setGeomProperty_no_match element w hu hm h,
   fun hu hm h => setGeomProperty_unhandled element w hu hm h⟩

theorem sync_silent_no_op_witness :
    addGeomProperties none 1 freshWorld = freshWorld ∧
    setGeomProperty none 1 "Label" freshWorld = some (freshWorld, false) ∧
    setGeomProperty none 1 "Label" freshWorld = some (freshWorld, false) ∧
    setGeomProperty none 1 "Label" freshWorld = some (freshWorld, false) :=
  ⟨(sync_silent_no_op none 1 "Label" freshWorld).1 (Or.inl rfl),
   (sync_silent_no_op none 1 "Label" freshWorld).2.1 rfl,
   (sync_silent_no_op none 1 "Label" freshWorld).2.2.1 (by decide) (by decide)
     (by intro rep hrep; simp [repsOf] at hrep),
   (sync_silent_no_op none 1 "Label" freshWorld).2.2.2 (by decide) (by decide) (by decide)⟩

/-- Claim C1, evaluated at the failing input: for an element whose body
representation is an extrusion over a closed polyline profile and an object
whose `PolylinePoints` value has one point more than the IFC polyline,
`set_geom_property "PolylinePoints"` returns `False` and issues no IFC API
call — contradicting the claim, which says it creates the missing point
entity, edits each point's coordinates and returns `True`. The guard of line
198 asks `is_a("IfcArbitraryClosedProfileDef")` of the representation item
itself (an `IfcExtrudedAreaSolid`) instead of its `SweptArea`, so the point
create/remove/edit code of lines 200-232 is never reached. -/
theorem set_polyline_points_never_syncs :
    setGeomProperty (some polyElem2d) 1 "PolylinePoints" wPoly = some (wPoly, false) := by
  rfl

/-- Claim C2, evaluated at the failing input: the comprehension of line 84
keeps only points with fewer than three coordinates instead of merely padding
the short ones, so a polyline whose single point has three coordinates yields
an empty `PolylinePoints` while the property is created: the counts (0 on the
CAD side, 1 on the IFC side) do not match, contradicting the claim. -/
theorem polyline_point_count_mismatch :
    (addGeomProperties (some polyElem3d) 1 freshWorld).obj.polylinePoints.length = 0 ∧
    "PolylinePoints" ∈ (addGeomProperties (some polyElem3d) 1 freshWorld).obj.propertiesList ∧
    poly3dPoints.length = 1 :=
  ⟨rfl, by decide, rfl⟩
/-- Claim C4: for every document object whose body representation is a single
`IfcExtrudedAreaSolid`, `add_geom_properties` sets `ExtrusionDepth` to the IFC
`Depth` times the file's unit scale times 1000, sets `ExtrusionDirection` to
the extruded direction's ratios, and when the swept area is an
`IfcRectangleProfileDef` sets `RectangleLength` to `XDim` and `RectangleWidth`
to `YDim`, each scaled by the same factor. -/
theorem add_geom_properties_rectangle_pull (u depth : ℚ) (sa : IfcProfile)
    (ratios : List ℚ) (pre post : List IfcRep) (w w1 : World)
    (hpre : ∀ r ∈ pre, r.representationIdentifier ≠ "Body")
    (hpost : ∀ r ∈ post, r.representationIdentifier ≠ "Body")
    (hw1 : w1 = addGeomProperties (some ⟨some ⟨pre ++
      ⟨"Body", [IfcItem.extrudedAreaSolid sa depth ⟨ratios⟩]⟩ :: post⟩⟩) u w) :
    w1.obj.extrusionDepth = depth * pullScale u ∧
    w1.obj.extrusionDirection = mkVector ratios ∧
    ∀ xdim ydim, sa = IfcProfile.rectangle xdim ydim →
      w1.obj.rectangleLength = xdim * pullScale u ∧
      w1.obj.rectangleWidth = ydim * pullScale u := by
  subst hw1
  have hnm : ∀ r ∈ pre, pullMatches r = false := fun r hr => by
    simp [pullMatches, hpre r hr]
  have hnm2 : ∀ r ∈ post, pullMatches r = false := fun r hr => by
    simp [pullMatches, hpost r hr]
  unfold addGeomProperties
  dsimp only
  rw [List.foldl_append, foldl_rep_id _ _ _ hnm]
  simp only [List.foldl_cons]
  rw [foldl_rep_id _ _ _ hnm2]
  refine ⟨addGeomPropertiesRep_solid_extrusionDepth _ _ _ _ _,
    addGeomPropertiesRep_solid_extrusionDirection _ _ _ _ _, ?_⟩
  rintro xdim ydim rfl
  exact ⟨addGeomPropertiesRep_rect_rectangleLength _ _ _ _ _ _,
    addGeomPropertiesRep_rect_rectangleWidth _ _ _ _ _ _⟩

theorem add_geom_properties_rectangle_pull_witness :
    (addGeomProperties (some ⟨some ⟨[axisRep] ++
        ⟨"Body", [IfcItem.extrudedAreaSolid (IfcProfile.rectangle 3 4) 5 ⟨[0, 0, 1]⟩]⟩
        :: []⟩⟩) 2 freshWorld).obj.extrusionDepth = 5 * pullScale 2 ∧
    (addGeomProperties (some ⟨some ⟨[axisRep] ++
        ⟨"Body", [IfcItem.extrudedAreaSolid (IfcProfile.rectangle 3 4) 5 ⟨[0, 0, 1]⟩]⟩
        :: []⟩⟩) 2 freshWorld).obj.extrusionDirection = mkVector [0, 0, 1] ∧
    (addGeomProperties (some ⟨some ⟨[axisRep] ++
        ⟨"Body", [IfcItem.extrudedAreaSolid (IfcProfile.rectangle 3 4) 5 ⟨[0, 0, 1]⟩]⟩
        :: []⟩⟩) 2 freshWorld).obj.rectangleLength = 3 * pullScale 2 ∧
    (addGeomProperties (some ⟨some ⟨[axisRep] ++
        ⟨"Body", [IfcItem.extrudedAreaSolid (IfcProfile.rectangle 3 4) 5 ⟨[0, 0, 1]⟩]⟩
        :: []⟩⟩) 2 freshWorld).obj.rectangleWidth = 4 * pullScale 2 := by
  have h := add_geom_properties_rectangle_pull 2 5 (IfcProfile.rectangle 3 4) [0, 0, 1]
    [axisRep] [] freshWorld _ (by decide) (by decide) rfl
  exact ⟨h.1, h.2.1, (h.2.2 3 4 rfl).1, (h.2.2 3 4 rfl).2⟩

/-- Claim C10: during polyline pull-sync, every IFC polyline point with
exactly two coordinates `(x, y)` is padded with a trailing zero and mapped to
the 3D vector `(x*s, y*s, 0)` with `s` the pull scale factor, before being
stored in `PolylinePoints`. -/
theorem polyline_pull_pads_2d_points (u depth : ℚ) (ratios : List ℚ)
    (pts : List IfcPoint) (pre post : List IfcRep) (w w1 : World) (x y : ℚ)
    (hpre : ∀ r ∈ pre, r.representationIdentifier ≠ "Body")
    (hpost : ∀ r ∈ post, r.representationIdentifier ≠ "Body")
    (hw1 : w1 = addGeomProperties (some ⟨some ⟨pre ++
      ⟨"Body", [IfcItem.extrudedAreaSolid
        (IfcProfile.arbitraryClosed (IfcCurve.polyline pts)) depth ⟨ratios⟩]⟩ :: post⟩⟩) u w)
    (hxy : [x, y] ∈ pts) :
    w1.obj.polylinePoints =
      ((pts.filter (fun p => p.length < 3)).map (fun p => p ++ [0])).map
        (fun p => (mkVector p).multiply (pullScale u)) ∧
    Vec3.mk (x * pullScale u) (y * pullScale u) 0 ∈ w1.obj.polylinePoints := by
  subst hw1
  have hnm : ∀ r ∈ pre, pullMatches r = false := fun r hr => by
    simp [pullMatches, hpre r hr]
  have hnm2 : ∀ r ∈ post, pullMatches r = false := fun r hr => by
    simp [pullMatches, hpost r hr]
  have key : (addGeomProperties (some ⟨some ⟨pre ++
      ⟨"Body", [IfcItem.extrudedAreaSolid
        (IfcProfile.arbitraryClosed (IfcCurve.polyline pts)) depth ⟨ratios⟩]⟩ :: post⟩⟩)
        u w).obj.polylinePoints =
      ((pts.filter (fun p => p.length < 3)).map (fun p => p ++ [0])).map
        (fun p => (mkVector p).multiply (pullScale u)) := by
    unfold addGeomProperties
    dsimp only
    rw [List.foldl_append, foldl_rep_id _ _ _ hnm]
    simp only [List.foldl_cons]
    rw [foldl_rep_id _ _ _ hnm2]
    exact addGeomPropertiesRep_poly_polylinePoints _ _ _ _ _
  refine ⟨key, ?_⟩
  rw [key]
  have h1 : ([x, y] : IfcPoint) ∈ pts.filter (fun p => p.length < 3) :=
    List.mem_filter.mpr ⟨hxy, by rfl⟩
  have h2 := List.mem_map_of_mem (fun p => p ++ [(0 : ℚ)]) h1
  have h3 := List.mem_map_of_mem (fun p => (mkVector p).multiply (pullScale u)) h2
  have heq : (mkVector ([x, y] ++ [0])).multiply (pullScale u) =
      Vec3.mk (x * pullScale u) (y * pullScale u) 0 := by
    simp [mkVector, Vec3.multiply]
  rw [← heq]
  exact h3

theorem polyline_pull_pads_2d_points_witness :
    (addGeomProperties (some ⟨some ⟨[] ++ ⟨"Body", [IfcItem.extrudedAreaSolid
        (IfcProfile.arbitraryClosed (IfcCurve.polyline [[1, 2], [3, 4, 5]])) 5
        ⟨[0, 0, 1]⟩]⟩ :: []⟩⟩) 1 freshWorld).obj.polylinePoints =
      ((([[1, 2], [3, 4, 5]] : List IfcPoint).filter (fun p => p.length < 3)).map
        (fun p => p ++ [0])).map (fun p => (mkVector p).multiply (pullScale 1)) ∧
    Vec3.mk (1 * pullScale 1) (2 * pullScale 1) 0 ∈
      (addGeomProperties (some ⟨some ⟨[] ++ ⟨"Body", [IfcItem.extrudedAreaSolid
        (IfcProfile.arbitraryClosed (IfcCurve.polyline [[1, 2], [3, 4, 5]])) 5
        ⟨[0, 0, 1]⟩]⟩ :: []⟩⟩) 1 freshWorld).obj.polylinePoints :=
  polyline_pull_pads_2d_points 1 5 [0, 0, 1] [[1, 2], [3, 4, 5]] [] [] freshWorld _ 1 2
    (by decide) (by decide) rfl (by decide)
/-- Claim C8: `setupContextMenu` adds the "Reveal children" action to the
menu if and only if `hasChildren` answers true for the object, `hasChildren`
returns `False` whenever the object has no associated IFC file, and the
lifecycle hooks `getDisplayModes`, `setDisplayMode`, `onChanged` and
`updateData` are no-ops. -/
theorem view_provider_adapter (obj vobj : VPObj) (menu : List MenuAction)
    (cs : List String) (mode prop : String) :
    (setupContextMenu obj menu = menu ++ [MenuAction.revealChildren] ↔
      hasChildren obj = true) ∧
    (setupContextMenu obj menu = menu ↔ hasChildren obj = false) ∧
    hasChildren ⟨none, cs⟩ = false ∧
    getDisplayModes obj = [] ∧
    setDisplayMode mode = mode ∧
    onChanged vobj prop = vobj ∧
    updateData obj prop = obj := by
  refine ⟨?_, ?_, rfl, rfl, rfl, rfl, rfl⟩
  · unfold setupContextMenu
    by_cases h : hasChildren obj = true
    · simp [h]
    · rw [if_neg h]
      constructor
      · intro he
        exfalso
        have hlen := congrArg List.length he
        simp at hlen
      · intro htrue
        exact absurd htrue h
  · unfold setupContextMenu
    by_cases h : hasChildren obj = true
    · rw [if_pos h, h]
      constructor
      · intro he
        exfalso
        have hlen := congrArg List.length he
        simp at hlen
      · intro hfalse
        cases hfalse
    · rw [if_neg h]
      simp [Bool.not_eq_true] at h
      simp [h]

/-- Claim C9: `set_geom_property` edits at most one representation item per
call: for each of the four scalar geometry properties it returns `True` right
after editing the first `Body` representation whose item matches, so exactly
one `attribute.edit_attributes` call is issued and it targets the
representation at the index just after the non-matching prefix, whatever
representations follow it. -/
theorem set_geom_property_first_body_match (u : ℚ) (prop : String) (w : World)
    (pre post : List IfcRep) (r : IfcRep) (hu : u ≠ 0)
    (hprop : prop ∈ ["ExtrusionDepth", "ExtrusionDirection", "RectangleLength",
      "RectangleWidth"])
    (hw : prop ∈ w.obj.propertiesList)
    (hpre : ∀ r' ∈ pre, pushMatches prop r' = false)
    (hr : pushMatches prop r = true) :
    ∃ tgt attrName value,
      setGeomProperty (some ⟨some ⟨pre ++ r :: post⟩⟩) u prop w =
        some ({ w with edits := w.edits ++ [IfcEdit.editAttributes tgt attrName value] },
          true) ∧
      EditTarget.repIdx tgt = pre.length := by
  simp only [List.mem_cons, List.not_mem_nil, or_false] at hprop
  rcases hprop with rfl | rfl | rfl | rfl
  · unfold setGeomProperty
    dsimp only
    rw [if_neg hu, if_pos hw, if_pos rfl,
      setDepthLoop_first_match _ pre r post 0 w hpre hr]
    exact ⟨EditTarget.solid (0 + pre.length), "Depth",
      AttrValue.num (w.obj.extrusionDepth * pushScale u), rfl,
      by simp [EditTarget.repIdx]⟩
  · unfold setGeomProperty
    dsimp only
    rw [if_neg hu, if_pos hw,
      if_neg (by decide : ¬("ExtrusionDirection" = "ExtrusionDepth")), if_pos rfl,
      setDirectionLoop_first_match _ pre r post 0 w hpre hr]
    exact ⟨EditTarget.direction (0 + pre.length), "DirectionRatios",
      AttrValue.tuple [w.obj.extrusionDirection.x, w.obj.extrusionDirection.y,
        w.obj.extrusionDirection.z], rfl, by simp [EditTarget.repIdx]⟩
  · unfold setGeomProperty
    dsimp only
    rw [if_neg hu, if_pos hw,
      if_neg (by decide : ¬("RectangleLength" = "ExtrusionDepth")),
      if_neg (by decide : ¬("RectangleLength" = "ExtrusionDirection")), if_pos rfl,
      setRectLengthLoop_first_match _ pre r post 0 w hpre hr]
    exact ⟨EditTarget.sweptArea (0 + pre.length), "XDim",
      AttrValue.num (w.obj.rectangleLength * pushScale u), rfl,
      by simp [EditTarget.repIdx]⟩
  · unfold setGeomProperty
    dsimp only
    rw [if_neg hu, if_pos hw,
      if_neg (by decide : ¬("RectangleWidth" = "ExtrusionDepth")),
      if_neg (by decide : ¬("RectangleWidth" = "ExtrusionDirection")),
      if_neg (by decide : ¬("RectangleWidth" = "RectangleLength")), if_pos rfl,
      setRectWidthLoop_first_match _ pre r post 0 w hpre hr]
    exact ⟨EditTarget.sweptArea (0 + pre.length), "YDim",
      AttrValue.num (w.obj.rectangleWidth * pushScale u), rfl,
      by simp [EditTarget.repIdx]⟩

theorem set_geom_property_first_body_match_witness :
    ∃ tgt attrName value,
      setGeomProperty (some ⟨some ⟨[axisRep] ++ bodyRectRep :: [bodyRectRep]⟩⟩) 1
          "ExtrusionDepth" wDepth =
        some ({ wDepth with
          edits := wDepth.edits ++ [IfcEdit.editAttributes tgt attrName value] }, true) ∧
      EditTarget.repIdx tgt = [axisRep].length :=
  set_geom_property_first_body_match 1 "ExtrusionDepth" wDepth [axisRep] [bodyRectRep]
    bodyRectRep (by decide) (by decide) (by decide) (by decide) (by decide)

end NativeIFC
